import Mathlib

/-!
Verification of the `OpenAIGenerator` adapter
(`goldenverba/components/generation/OpenAIGenerator.py`).

The adapter is embedded shallowly:

* Python/JSON values flowing through the decode loop are modelled by the
  inductive `Json`; `Json.null` stands for both JSON `null` and Python `None`
  (the two are identified by `json.loads` and `dict.get`).
* Strings are modelled as `List Char`, with the handful of `str` methods the
  source uses (`startswith`, `strip`, slicing, substring membership) defined
  on lists.
* `json.loads` is modelled by `jsonLoads`, a recursive-descent decoder for the
  JSON subset exercised by the event protocol (objects, arrays, strings with
  the common escapes, integers, literals); like the library function it fails
  on malformed input and on trailing data.
* Exceptions are modelled by `Except PyErr`; a generator body is modelled as
  the list of chunks yielded before it either finishes or raises.
* The network is externalized: an HTTP exchange is an input value
  (`StreamResponse` for the streaming POST, `FetchResult` for the discovery
  GET), so that the functions under verification are exactly the pure
  decision logic of the source.
* `get_token` and `get_environment` are imported by the source from
  `goldenverba.components.util`, whose code is not part of this tree; they
  are modelled from the specification (see their doc comments).
-/

/-- A JSON value as produced by `json.loads`. `Json.null` models both JSON
`null` and Python `None`. Object fields are kept in textual order; lookups
take the last binding, mirroring `dict` construction. -/
inductive Json where
  | null : Json
  | bool (b : Bool) : Json
  | num (n : Int) : Json
  | str (s : List Char) : Json
  | arr (xs : List Json) : Json
  | obj (kvs : List (List Char × Json)) : Json

/-- Left brace character (written by code so that brace characters never
appear in string literals). -/
def lbrace : Char := '\x7b'

/-- Right brace character. -/
def rbrace : Char := '\x7d'

/-- Shorthand for turning a string literal into the `List Char` representation
used throughout. -/
def toL (s : String) : List Char := s.toList

/-- The whitespace characters skipped by the JSON decoder. -/
def skipWs : List Char → List Char
  | [] => []
  | c :: cs => if c == ' ' || c == '\t' || c == '\n' || c == '\r' then skipWs cs else c :: cs

/-- JSON string escape decoding (the `\uXXXX` form is outside the modelled
subset). -/
def escChar (e : Char) : Option Char :=
  if e == '"' || e == '/' || e == '\\' then some e
  else if e == 'n' then some '\n'
  else if e == 't' then some '\t'
  else if e == 'r' then some '\r'
  else if e == 'b' then some (Char.ofNat 8)
  else if e == 'f' then some (Char.ofNat 12)
  else none

/-- Decode a JSON string body up to the closing quote, returning the decoded
characters and the remaining input. -/
def parseStrBody : List Char → Option (List Char × List Char)
  | [] => none
  | '"' :: rest => some ([], rest)
  | '\\' :: rest =>
    match rest with
    | [] => none
    | e :: rest2 =>
      match escChar e with
      | none => none
      | some c =>
        match parseStrBody rest2 with
        | none => none
        | some (s, r) => some (c :: s, r)
  | c :: rest =>
    match parseStrBody rest with
    | none => none
    | some (s, r) => some (c :: s, r)

/-- Accumulate decimal digits. -/
def digitsAcc : Nat → List Char → Nat × List Char
  | acc, [] => (acc, [])
  | acc, c :: rest =>
    if c.isDigit then digitsAcc (acc * 10 + (c.toNat - 48)) rest else (acc, c :: rest)

/-- Fractional and exponent forms are outside the modelled JSON subset. -/
def numTailOk : List Char → Bool
  | '.' :: _ => false
  | 'e' :: _ => false
  | 'E' :: _ => false
  | _ => true

/-- Decode an integer JSON number. -/
def parseNum : List Char → Option (Json × List Char)
  | '-' :: c :: rest =>
    if c.isDigit then
      let p := digitsAcc (c.toNat - 48) rest
      if numTailOk p.2 then some (Json.num (-(Int.ofNat p.1)), p.2) else none
    else none
  | c :: rest =>
    if c.isDigit then
      let p := digitsAcc (c.toNat - 48) rest
      if numTailOk p.2 then some (Json.num (Int.ofNat p.1), p.2) else none
    else none
  | [] => none

mutual

/-- Decode one JSON value (fuel-indexed recursive descent). -/
def parseVal : Nat → List Char → Option (Json × List Char)
  | 0, _ => none
  | Nat.succ fuel, s =>
    match skipWs s with
    | 'n' :: 'u' :: 'l' :: 'l' :: rest => some (Json.null, rest)
    | 't' :: 'r' :: 'u' :: 'e' :: rest => some (Json.bool true, rest)
    | 'f' :: 'a' :: 'l' :: 's' :: 'e' :: rest => some (Json.bool false, rest)
    | '"' :: rest =>
      match parseStrBody rest with
      | none => none
      | some (cs, r) => some (Json.str cs, r)
    | '[' :: rest =>
      (match skipWs rest with
       | ']' :: r2 => some (Json.arr [], r2)
       | _ =>
         match parseVal fuel (skipWs rest) with
         | none => none
         | some (v, r2) =>
           match parseArrTail fuel r2 with
           | none => none
           | some (vs, r3) => some (Json.arr (v :: vs), r3))
    | c :: rest =>
      if c == lbrace then
        (match skipWs rest with
         | d :: _ =>
           if d == rbrace then some (Json.obj [], List.tail (skipWs rest))
           else
             match parseMember fuel (skipWs rest) with
             | none => none
             | some (kv, r3) =>
               match parseObjTail fuel r3 with
               | none => none
               | some (kvs, r4) => some (Json.obj (kv :: kvs), r4)
         | [] => none)
      else parseNum (c :: rest)
    | [] => none

/-- Decode the remainder of a JSON array after its first element. -/
def parseArrTail : Nat → List Char → Option (List Json × List Char)
  | 0, _ => none
  | Nat.succ fuel, s =>
    match skipWs s with
    | ']' :: r => some ([], r)
    | ',' :: r =>
      match parseVal fuel r with
      | none => none
      | some (v, r2) =>
        match parseArrTail fuel r2 with
        | none => none
        | some (vs, r3) => some (v :: vs, r3)
    | _ => none

/-- Decode one `"key": value` object member. -/
def parseMember : Nat → List Char → Option ((List Char × Json) × List Char)
  | 0, _ => none
  | Nat.succ fuel, s =>
    match skipWs s with
    | '"' :: rest =>
      (match parseStrBody rest with
       | none => none
       | some (k, r) =>
         match skipWs r with
         | ':' :: r2 =>
           (match parseVal fuel r2 with
            | none => none
            | some (v, r3) => some ((k, v), r3))
         | _ => none)
    | _ => none

/-- Decode the remainder of a JSON object after its first member. -/
def parseObjTail : Nat → List Char → Option (List (List Char × Json) × List Char)
  | 0, _ => none
  | Nat.succ fuel, s =>
    match skipWs s with
    | ',' :: r =>
      (match parseMember fuel r with
       | none => none
       | some (kv, r2) =>
         match parseObjTail fuel r2 with
         | none => none
         | some (kvs, r3) => some (kv :: kvs, r3))
    | d :: r => if d == rbrace then some ([], r) else none
    | [] => none

end

/-- The Python exceptions the adapter can raise, as far as the claims are
concerned. -/
inductive PyErr where
  | jsonDecodeError
  | keyError
  | typeError
  | indexError
  | attributeError
  | missingCredential (msg : List Char)
deriving DecidableEq

/-- `json.loads`: decode a full document, rejecting malformed input and
trailing data. -/
def jsonLoads (s : List Char) : Except PyErr Json :=
  match parseVal (s.length + s.length + 2) s with
  | none => Except.error PyErr.jsonDecodeError
  | some (j, rest) =>
    if (skipWs rest).isEmpty then Except.ok j else Except.error PyErr.jsonDecodeError

/-- Lookup in an association list with `dict` semantics: the last binding of
a duplicated key wins. -/
def dictGet {α : Type} : List (List Char × α) → List Char → Option α
  | [], _ => none
  | (k', v) :: rest, k =>
    match dictGet rest k with
    | some v' => some v'
    | none => if k' = k then some v else none

/-- Python substring containment (`needle in haystack` on strings). -/
def containsSub (needle : List Char) : List Char → Bool
  | [] => needle.isEmpty
  | c :: rest => needle.isPrefixOf (c :: rest) || containsSub needle rest

/-- Python `str.strip()` whitespace (the ASCII part of the set). -/
def isStripWs (c : Char) : Bool :=
  c == ' ' || c == '\t' || c == '\n' || c == '\r' || c == '\x0b' || c == '\x0c'

/-- Python `str.strip()`: drop whitespace from both ends. -/
def pyStrip (s : List Char) : List Char :=
  ((s.dropWhile isStripWs).reverse.dropWhile isStripWs).reverse

/-- Python `value[key]` with a string key (`KeyError` on a missing dict key,
`TypeError` on non-dict values, as raised by the source's subscript
expressions). -/
def pyGetItem (j : Json) (k : List Char) : Except PyErr Json :=
  match j with
  | Json.obj kvs =>
    match dictGet kvs k with
    | some v => Except.ok v
    | none => Except.error PyErr.keyError
  | _ => Except.error PyErr.typeError

/-- Python `value[0]` (`IndexError` on an empty sequence, `KeyError` on a dict
whose keys are strings, `TypeError` otherwise). -/
def pyIndexZero (j : Json) : Except PyErr Json :=
  match j with
  | Json.arr (x :: _) => Except.ok x
  | Json.arr [] => Except.error PyErr.indexError
  | Json.str (c :: _) => Except.ok (Json.str [c])
  | Json.str [] => Except.error PyErr.indexError
  | Json.obj _ => Except.error PyErr.keyError
  | _ => Except.error PyErr.typeError

/-- Equality of a JSON value against a Python string (only strings compare
equal to a string). -/
def jsonIsStr (k : List Char) : Json → Bool
  | Json.str s => s = k
  | _ => false

/-- Python `key in value` for a string key: dict-key membership, list
membership, substring test on strings, `TypeError` otherwise. -/
def pyIn (k : List Char) (j : Json) : Except PyErr Bool :=
  match j with
  | Json.obj kvs => Except.ok (kvs.any (fun p => p.1 == k))
  | Json.arr xs => Except.ok (xs.any (jsonIsStr k))
  | Json.str s => Except.ok (containsSub k s)
  | _ => Except.error PyErr.typeError

/-- Python `value.get(key)` (default `None`, modelled by `Json.null`);
`AttributeError` when the receiver is not a dict. -/
def pyGet (j : Json) (k : List Char) : Except PyErr Json :=
  match j with
  | Json.obj kvs => Except.ok ((dictGet kvs k).getD Json.null)
  | _ => Except.error PyErr.attributeError

/-- Python iteration over a JSON value: list elements, dict keys, string
characters; `TypeError` otherwise. -/
def pyIterate (j : Json) : Except PyErr (List Json) :=
  match j with
  | Json.arr xs => Except.ok xs
  | Json.obj kvs => Except.ok (kvs.map (fun p => Json.str p.1))
  | Json.str s => Except.ok (s.map (fun c => Json.str [c]))
  | _ => Except.error PyErr.typeError

/- ----------------------------------------------------------------------- -/
/- The streaming decode loop of `generate_stream` (source lines 113-128).   -/
/- ----------------------------------------------------------------------- -/

/-- One yielded element of `generate_stream`: the dict
`\x7b"message": ..., "finish_reason": ...\x7d`. -/
structure Chunk where
  message : Json
  finish_reason : Json

/-- The event-line marker `"data: "`. -/
def dataMarker : List Char := toL "data: "

/-- The terminal sentinel `"data: [DONE]"`. -/
def doneSentinel : List Char := toL "data: [DONE]"

def choicesKey : List Char := toL "choices"
def deltaKey : List Char := toL "delta"
def contentKey : List Char := toL "content"
def finishKey : List Char := toL "finish_reason"

/-- The per-event logic of the decode loop (source lines 118-128): inspect
`choices[0]` of a decoded object; yield a content chunk, a finish chunk, or
nothing. -/
def processEvent (j : Json) : Except PyErr (Option Chunk) :=
  match pyGetItem j choicesKey with
  | Except.error e => Except.error e
  | Except.ok choices =>
    match pyIndexZero choices with
    | Except.error e => Except.error e
    | Except.ok choice =>
      match pyIn deltaKey choice with
      | Except.error e => Except.error e
      | Except.ok hasDelta =>
        match (if hasDelta then
                 match pyGetItem choice deltaKey with
                 | Except.error e => Except.error e
                 | Except.ok delta => pyIn contentKey delta
               else Except.ok false) with
        | Except.error e => Except.error e
        | Except.ok true =>
          match pyGetItem choice deltaKey with
          | Except.error e => Except.error e
          | Except.ok delta =>
            match pyGetItem delta contentKey with
            | Except.error e => Except.error e
            | Except.ok content =>
              match pyGet choice finishKey with
              | Except.error e => Except.error e
              | Except.ok fr => Except.ok (some { message := content, finish_reason := fr })
        | Except.ok false =>
          match pyIn finishKey choice with
          | Except.error e => Except.error e
          | Except.ok true =>
            match pyGetItem choice finishKey with
            | Except.error e => Except.error e
            | Except.ok fr =>
              Except.ok (some { message := Json.str [], finish_reason := fr })
          | Except.ok false => Except.ok none

/-- The decode loop of `generate_stream` over the response's lines (source
lines 113-128): returns the chunks yielded, paired with the exception that
aborted the loop, if any. A line starting with `"data: "` is decoded unless
it is the `[DONE]` sentinel (which breaks out of the loop); other lines are
skipped. -/
def processLines : List (List Char) → List Chunk × Option PyErr
  | [] => ([], none)
  | line :: rest =>
    if dataMarker.isPrefixOf line then
      if pyStrip line = doneSentinel then ([], none)
      else
        match jsonLoads (List.drop 6 line) with
        | Except.error e => ([], some e)
        | Except.ok j =>
          match processEvent j with
          | Except.error e => ([], some e)
          | Except.ok none => processLines rest
          | Except.ok (some c) =>
            let p := processLines rest
            (c :: p.1, p.2)
    else processLines rest

/- ----------------------------------------------------------------------- -/
/- Prompt assembly (`prepare_messages`, source lines 130-150).              -/
/- ----------------------------------------------------------------------- -/

/-- One prior conversation turn as the source reads it: the `.type` and
`.content` attributes of the message object. -/
structure ConvMessage where
  type : List Char
  content : Json

/-- One entry of the outgoing `messages` list: a `\x7b"role": ..., "content":
...\x7d` dict. -/
structure OutMessage where
  role : List Char
  content : Json

/-- The fixed template of the synthesized final user turn. -/
def queryTemplate (query context : List Char) : List Char :=
  toL "Answer this query: '" ++ query ++ toL "' with this provided context: " ++ context

/-- `OpenAIGenerator.prepare_messages` (source lines 130-150): system message,
then the conversation turns, then the synthesized user turn. -/
def prepare_messages (query context : List Char) (conversation : List ConvMessage)
    (system_message : Json) : List OutMessage :=
  { role := toL "system", content := system_message }
    :: (conversation.map (fun m => { role := m.type, content := m.content })
        ++ [{ role := toL "user", content := Json.str (queryTemplate query context) }])

/- ----------------------------------------------------------------------- -/
/- Ambient environment, configuration, and credential resolution.           -/
/- ----------------------------------------------------------------------- -/

/-- The ambient environment variables the source consults. -/
structure Env where
  OPENAI_API_KEY : Option (List Char)
  OPENAI_BASE_URL : Option (List Char)
  OPENAI_MODEL : Option (List Char)

/-- Modelled from the spec: `get_token` is imported from
`goldenverba.components.util`, whose code is not in this tree; per the spec it
is "a credential resolver keyed by a named secret", here applied to the key
`OPENAI_API_KEY`, yielding the ambient credential when configured and nothing
otherwise. -/
def get_token (env : Env) : Option (List Char) :=
  env.OPENAI_API_KEY

/-- One configuration entry (`InputConfig` from `goldenverba.components.types`,
whose code is not in this tree; its shape — type tag, value, description,
value list — is fixed by the spec's configuration schema and by the
constructor's call sites). -/
structure InputConfig where
  type : List Char
  value : Json
  description : List Char
  values : List Json

/-- The adapter's configuration: an ordered mapping from option name to
entry. -/
abbrev Config : Type := List (List Char × InputConfig)

def modelKey : List Char := toL "Model"
def systemMessageKey : List Char := toL "System Message"
def apiKeyKey : List Char := toL "API Key"
def urlKey : List Char := toL "URL"

/-- Error message passed for the API key lookup (source line 85). -/
def noKeyMessage : List Char := toL "No OpenAI API Key found"

/-- Fourth argument of the URL lookup (source line 88). -/
def urlFourthArg : List Char := toL "https://api.openai.com/v1"

/-- Modelled from the spec: `get_environment` is imported from
`goldenverba.components.util`, whose code is not in this tree; per the spec it
"resolves the effective API key and base URL by preferring
configuration-supplied values over ambient ones" and "fails with a
`MissingCredentialError` if no API key can be resolved from either source".
The failure carries the message the call site passes. -/
def get_environment (config : Config) (name : List Char) (ambient : Option (List Char))
    (message : List Char) : Except PyErr Json :=
  match dictGet config name with
  | some entry => Except.ok entry.value
  | none =>
    match ambient with
    | some v => Except.ok (Json.str v)
    | none => Except.error (PyErr.missingCredential message)

/- ----------------------------------------------------------------------- -/
/- `generate_stream` (source lines 75-128).                                 -/
/- ----------------------------------------------------------------------- -/

/-- The streaming POST's response, as the adapter observes it: a status code
and the decoded lines of the body. -/
structure StreamResponse where
  status : Nat
  lines : List (List Char)

/-- Everything `generate_stream` computes before touching the network:
resolved URL and key, chosen model, assembled messages. -/
structure PreparedRequest where
  openai_url : Json
  openai_key : Json
  model : Json
  messages : List OutMessage

/-- The pre-network phase of `generate_stream` (source lines 82-103):
configuration reads, credential resolution, prompt assembly. A missing
`System Message` entry raises (`None.value`); a missing `Model` entry raises
as well because the fallback dict literal at source line 83 has no `value`
attribute. -/
def generate_stream_prepare (config : Config) (env : Env) (query context : List Char)
    (conversation : List ConvMessage) : Except PyErr PreparedRequest :=
  match dictGet config systemMessageKey with
  | none => Except.error PyErr.attributeError
  | some smEntry =>
    match dictGet config modelKey with
    | none => Except.error PyErr.attributeError
    | some modelEntry =>
      match get_environment config apiKeyKey env.OPENAI_API_KEY noKeyMessage with
      | Except.error e => Except.error e
      | Except.ok key =>
        match get_environment config urlKey env.OPENAI_BASE_URL urlFourthArg with
        | Except.error e => Except.error e
        | Except.ok url =>
          Except.ok
            { openai_url := url
              openai_key := key
              model := modelEntry.value
              messages := prepare_messages query context conversation smEntry.value }

/-- `OpenAIGenerator.generate_stream` (source lines 75-128) with the network
externalized: if the pre-network phase raises, no chunk is produced and the
error surfaces; otherwise the given response's lines are decoded by the
loop. The response's status code is never consulted — `httpx` does not raise
on a response status unless asked to, and the source never asks. -/
def generate_stream (config : Config) (env : Env) (query context : List Char)
    (conversation : List ConvMessage) (resp : StreamResponse) :
    List Chunk × Option PyErr :=
  match generate_stream_prepare config env query context conversation with
  | Except.error e => ([], some e)
  | Except.ok _ => processLines resp.lines

/- ----------------------------------------------------------------------- -/
/- Model discovery (`get_models`, source lines 152-171).                    -/
/- ----------------------------------------------------------------------- -/

/-- The discovery GET's outcome as the adapter observes it: either a transport
error (modelling every exception `requests.get` itself can raise) or a
response with a status code and body. -/
inductive FetchResult where
  | networkError : FetchResult
  | response (status : Nat) (body : List Char) : FetchResult

/-- The hardcoded fallback catalog (source line 154). -/
def default_models : List Json :=
  [Json.str (toL "gpt-4o"), Json.str (toL "gpt-3.5-turbo")]

def dataKey : List Char := toL "data"
def idKey : List Char := toL "id"
def embeddingNeedle : List Char := toL "embedding"

/-- The body of the list comprehension at source lines 164-168, for one
iterated element: look up `model["id"]` and test `"embedding" in model["id"]`.
Returns the identifier paired with the result of the membership test. -/
def compItems : List Json → Except PyErr (List Json)
  | [] => Except.ok []
  | item :: rest =>
    match pyGetItem item idKey with
    | Except.error e => Except.error e
    | Except.ok id =>
      match pyIn embeddingNeedle id with
      | Except.error e => Except.error e
      | Except.ok isEmb =>
        match compItems rest with
        | Except.error e => Except.error e
        | Except.ok tail => Except.ok (if isEmb then tail else id :: tail)

/-- The list comprehension at source lines 164-168 applied to the decoded
response body: iterate `response.json()["data"]`, keeping each `model["id"]`
not containing `"embedding"`. -/
def listComp (j : Json) : Except PyErr (List Json) :=
  match pyGetItem j dataKey with
  | Except.error e => Except.error e
  | Except.ok data =>
    match pyIterate data with
    | Except.error e => Except.error e
    | Except.ok items => compItems items

/-- `response.json()` followed by the comprehension: the whole body-dependent
part of the `try` block. -/
def extractModels (body : List Char) : Except PyErr (List Json) :=
  match jsonLoads body with
  | Except.error e => Except.error e
  | Except.ok j => listComp j

/-- `requests.Response.raise_for_status` raises exactly on client and server
error codes (400-599). -/
def raisesForStatus (status : Nat) : Bool :=
  decide (400 ≤ status) && decide (status < 600)

/-- `OpenAIGenerator.get_models` (source lines 152-171) with the network
externalized. The `try` block returns the fallback catalog when the token is
absent, and otherwise fetches `<url>/models`; every exception — transport
error, `raise_for_status`, body decoding, the comprehension — is caught and
degrades to the fallback catalog. The `url` argument only names the fetch
target, which the externalized `FetchResult` already embodies. -/
def get_models (token : Option (List Char)) (url : List Char) (fetch : FetchResult) :
    List Json :=
  match token with
  | none => default_models
  | some _ =>
    match fetch with
    | FetchResult.networkError => default_models
    | FetchResult.response status body =>
      if raisesForStatus status then default_models
      else
        match extractModels body with
        | Except.ok ms => ms
        | Except.error _ => default_models

/- ----------------------------------------------------------------------- -/
/- Construction (`__init__`, source lines 19-73).                           -/
/- ----------------------------------------------------------------------- -/

/-- The default base URL (source line 26). -/
def defaultBaseUrl : List Char := toL "https://api.openai.com/v1"

/-- The fixed support-assistant persona prompt (source lines 39-54). -/
def systemMessageDefault : List Char := toL
  ("You are a professional and concise customer support assistant for an online service.\n\n"
    ++ "Your primary goals are:\n"
    ++ "1. Provide clear, direct, and helpful answers.\n"
    ++ "2. Avoid unnecessary details or filler phrases.\n"
    ++ "3. Use simple language, even for technical topics.\n"
    ++ "4. Give examples when it helps clarify the solution.\n"
    ++ "5. Never make up information. Say 'I don't know' if unsure.\n\n"
    ++ "Examples:\n"
    ++ "User: How can I reset my password?\n"
    ++ "Assistant: Click on 'Forgot password' at login and follow the instructions.\n\n"
    ++ "User: I want to cancel my subscription.\n"
    ++ "Assistant: Go to 'Account Settings' → 'Billing' → click 'Cancel Subscription'.\n\n"
    ++ "If the user is frustrated, stay calm and offer solutions politely.\n"
    ++ "Always stay on topic and respond in a maximum of 2 to 3 short sentences.")

/-- `OpenAIGenerator.__init__` (source lines 19-73) with the discovery fetch
externalized: resolve the ambient credential and base URL, discover the
catalog, then populate the configuration. `models[0]` at source line 28 is
evaluated eagerly as the second argument of `os.getenv`, so an empty catalog
raises `IndexError` before the `OPENAI_MODEL` lookup can shadow it. The
`API Key` and `URL` entries are appended only when the corresponding ambient
value is absent. -/
def generator_init (env : Env) (fetch : FetchResult) : Except PyErr Config :=
  let api_key := get_token env
  let base_url := env.OPENAI_BASE_URL.getD defaultBaseUrl
  let models := get_models api_key base_url fetch
  match models with
  | [] => Except.error PyErr.indexError
  | firstModel :: _ =>
    let default_model : Json :=
      match env.OPENAI_MODEL with
      | some m => Json.str m
      | none => firstModel
    let cfg0 : Config :=
      [(modelKey,
        { type := toL "dropdown"
          value := default_model
          description := toL "Select an OpenAI Model"
          values := models }),
       (systemMessageKey,
        { type := toL "textarea"
          value := Json.str systemMessageDefault
          description := toL "System prompt that defines the assistants behavior and tone."
          values := [] })]
    let cfg1 : Config :=
      if (get_token env).isNone then
        cfg0 ++ [(apiKeyKey,
          { type := toL "password"
            value := Json.str []
            description := toL
              ("You can set your OpenAI API Key here or set it as environment variable "
                ++ "`OPENAI_API_KEY`")
            values := [] })]
      else cfg0
    let cfg2 : Config :=
      if env.OPENAI_BASE_URL.isNone then
        cfg1 ++ [(urlKey,
          { type := toL "text"
            value := Json.str defaultBaseUrl
            description := toL "You can change the Base URL here if needed"
            values := [] })]
      else cfg1
    Except.ok cfg2

/- ----------------------------------------------------------------------- -/
/- Concrete values used by the claim theorems.                              -/
/- ----------------------------------------------------------------------- -/

/-- The event line carrying a content delta of `"Hi"`. -/
def hiLine : List Char :=
  toL "data: \x7b\"choices\":[\x7b\"delta\":\x7b\"content\":\"Hi\"\x7d\x7d]\x7d"

/-- The terminal sentinel line. -/
def doneLine : List Char := toL "data: [DONE]"

/-- A line whose stripped form is the sentinel but which does not start with
the `"data: "` marker. -/
def wsDoneLine : List Char := toL " data: [DONE]"

/-- The event line carrying only a finish reason of `"stop"`. -/
def stopLine : List Char := toL "data: \x7b\"choices\":[\x7b\"finish_reason\":\"stop\"\x7d]\x7d"

/-- The discovery body with one embedding and one chat model. -/
def catalogBody : List Char :=
  toL "\x7b\"data\":[\x7b\"id\":\"text-embedding-3\"\x7d,\x7b\"id\":\"gpt-4o\"\x7d]\x7d"

/-- A successful discovery body whose only identifier contains `"embedding"`. -/
def embeddingOnlyBody : List Char := toL "\x7b\"data\":[\x7b\"id\":\"text-embedding-3\"\x7d]\x7d"

/-- A typical upstream error body (a single line with no `"data: "` marker). -/
def errBodyLine : List Char := toL "\x7b\"error\":\x7b\"message\":\"Invalid API key\"\x7d\x7d"

/-- An environment with no ambient values at all. -/
def envEmpty : Env :=
  { OPENAI_API_KEY := none, OPENAI_BASE_URL := none, OPENAI_MODEL := none }

/-- An environment with only the ambient credential set. -/
def envKeyOnly : Env :=
  { OPENAI_API_KEY := some (toL "sk-test"), OPENAI_BASE_URL := none, OPENAI_MODEL := none }

/-- A configuration holding all four entries, as a caller of `generate_stream`
would supply it. -/
def cfgReady : Config :=
  [(modelKey,
    { type := toL "dropdown", value := Json.str (toL "gpt-4o"),
      description := [], values := [] }),
   (systemMessageKey,
    { type := toL "textarea", value := Json.str (toL "sys"),
      description := [], values := [] }),
   (apiKeyKey,
    { type := toL "password", value := Json.str (toL "sk-cfg"),
      description := [], values := [] }),
   (urlKey,
    { type := toL "text", value := Json.str defaultBaseUrl,
      description := [], values := [] })]

/-- A configuration holding only the `Model` and `System Message` entries. -/
def cfgNoKey : Config :=
  [(modelKey,
    { type := toL "dropdown", value := Json.str (toL "gpt-4o"),
      description := [], values := [] }),
   (systemMessageKey,
    { type := toL "textarea", value := Json.str (toL "sys"),
      description := [], values := [] })]

/- ----------------------------------------------------------------------- -/
/- Helper lemmas.                                                           -/
/- ----------------------------------------------------------------------- -/

/-- `dictGet` finds a binding exactly when some key of the list matches. -/
theorem dictGet_isSome_eq_any {α : Type} (kvs : List (List Char × α)) (k : List Char) :
    (dictGet kvs k).isSome = kvs.any (fun p => p.1 == k) := by
  induction kvs with
  | nil => rfl
  | cons p rest ih =>
    obtain ⟨k', v⟩ := p
    simp only [dictGet, List.any_cons]
    cases h : dictGet rest k with
    | some v' => rw [h] at ih; simp [← ih]
    | none =>
      rw [h] at ih
      by_cases hk : k' = k <;> simp [hk, ← ih]

/-- A run of lines none of which starts with the `"data: "` marker is skipped
whole by the decode loop. -/
theorem processLines_skip_all (lines : List (List Char))
    (h : ∀ l ∈ lines, dataMarker.isPrefixOf l = false) :
    processLines lines = ([], none) := by
  induction lines with
  | nil => rfl
  | cons l rest ih =>
    have hl := h l (List.mem_cons_self l rest)
    simp only [processLines, hl, Bool.false_eq_true, if_false]
    exact ih (fun x hx => h x (List.mem_cons_of_mem l hx))

/- ----------------------------------------------------------------------- -/
/- C1.                                                                      -/
/- ----------------------------------------------------------------------- -/

/-- C1 (counterexample): the claim says a non-2xx status on the streaming
POST aborts the sequence with a typed `UpstreamRequestError`. The source
never inspects the response status (`httpx` raises on a status only when
`raise_for_status` is called, and `generate_stream` never calls it): on a 500
response carrying a JSON error body, the generator completes normally — no
chunk and, decisively, no error of any kind. -/
theorem c1_counterexample :
    generate_stream cfgReady envEmpty (toL "q") (toL "ctx") []
        { status := 500, lines := [errBodyLine] } = ([], none) := rfl

/-- C1 (amended): `generate_stream` performs no HTTP status check. Its
outcome is independent of the response status, and — since an upstream error
body contains no `"data: "`-marked lines — a non-2xx response makes the
sequence complete normally with no chunks and no raised error. -/
theorem c1_amended_no_status_check (config : Config) (env : Env)
    (query context : List Char) (conversation : List ConvMessage)
    (s s' : Nat) (lines : List (List Char)) (r : PreparedRequest) :
    generate_stream config env query context conversation { status := s, lines := lines } =
      generate_stream config env query context conversation { status := s', lines := lines } ∧
    (generate_stream_prepare config env query context conversation = Except.ok r →
      (∀ l ∈ lines, dataMarker.isPrefixOf l = false) →
      generate_stream config env query context conversation { status := s, lines := lines } =
        ([], none)) := by
  constructor
  · cases h : generate_stream_prepare config env query context conversation <;>
      simp [generate_stream, h]
  · intro hp hl
    simp [generate_stream, hp]
    exact processLines_skip_all lines hl

/-- Witness for the amended C1 at a concrete request and a concrete 404
response. -/
theorem c1_amended_witness :
    generate_stream cfgReady envEmpty (toL "q") (toL "ctx") []
        { status := 404, lines := [toL ": keep-alive", errBodyLine] } = ([], none) :=
  (c1_amended_no_status_check cfgReady envEmpty (toL "q") (toL "ctx") [] 404 200
    [toL ": keep-alive", errBodyLine]
    { openai_url := Json.str defaultBaseUrl, openai_key := Json.str (toL "sk-cfg"),
      model := Json.str (toL "gpt-4o"),
      messages := prepare_messages (toL "q") (toL "ctx") [] (Json.str (toL "sys")) }).2
    rfl (by decide)

/- ----------------------------------------------------------------------- -/
/- C2.                                                                      -/
/- ----------------------------------------------------------------------- -/

/-- C2 (counterexample): the claim makes any line whose stripped form is
exactly `data: [DONE]` terminate the sequence. The source tests
`startswith("data: ")` first, so a line stripping to the sentinel but
starting with a space is merely ignored: the loop continues and a later
content line still yields a chunk, where the claim requires the sequence to
have ended with no chunk. -/
theorem c2_counterexample :
    dataMarker.isPrefixOf wsDoneLine = false ∧
    pyStrip wsDoneLine = doneSentinel ∧
    processLines [wsDoneLine, hiLine] =
      ([{ message := Json.str (toL "Hi"), finish_reason := Json.null }], none) ∧
    (processLines [wsDoneLine, hiLine]).1.length = 1 :=
  ⟨rfl, rfl, rfl, rfl⟩

/-- C2 (amended): among the lines that do start with `"data: "`, one whose
stripped form is exactly `data: [DONE]` is the terminal sentinel — the
sequence ends there and no chunk is produced for it; a line not starting
with `"data: "` is ignored (even when its stripped form is the sentinel);
and the stream `data: ...content "Hi"...` then `data: [DONE]` yields exactly
one chunk with message `"Hi"` and null finish reason, then terminates. -/
theorem c2_amended_sentinel :
    (∀ (line : List Char) (rest : List (List Char)),
        dataMarker.isPrefixOf line = true → pyStrip line = doneSentinel →
        processLines (line :: rest) = ([], none)) ∧
    (∀ (line : List Char) (rest : List (List Char)),
        dataMarker.isPrefixOf line = false →
        processLines (line :: rest) = processLines rest) ∧
    processLines [hiLine, doneLine] =
      ([{ message := Json.str (toL "Hi"), finish_reason := Json.null }], none) := by
  refine ⟨?_, ?_, rfl⟩
  · intro line rest h1 h2
    simp [processLines, h1, h2]
  · intro line rest h
    simp [processLines, h]

/-- Witness for the amended C2: the sentinel line stops the loop even with a
content line behind it. -/
theorem c2_amended_witness : processLines [doneLine, hiLine] = ([], none) :=
  c2_amended_sentinel.1 doneLine [hiLine] rfl rfl

/- ----------------------------------------------------------------------- -/
/- C3.                                                                      -/
/- ----------------------------------------------------------------------- -/

/-- `choices[0]` carries no `delta.content` field: either no `delta` binding,
or a `delta` object without a `content` binding. -/
def deltaWithoutContent (kvs : List (List Char × Json)) : Prop :=
  dictGet kvs deltaKey = none ∨
  ∃ dkvs, dictGet kvs deltaKey = some (Json.obj dkvs) ∧ dictGet dkvs contentKey = none

/-- C3 (confirmed): for a decoded event object whose `choices[0]` is an
object, exactly one of three outcomes happens: a `delta` with a `content`
field yields a chunk with that value and the choice's `finish_reason`
(`null` when absent); otherwise a present `finish_reason` yields a chunk
with empty text and that reason; otherwise no chunk is produced. The line
`data: ...finish_reason "stop"...` accordingly yields the chunk with empty
message and finish reason `"stop"`. -/
theorem c3_event_trichotomy (j choices choice : Json) (kvs : List (List Char × Json))
    (h1 : pyGetItem j choicesKey = Except.ok choices)
    (h2 : pyIndexZero choices = Except.ok choice)
    (h3 : choice = Json.obj kvs) :
    (∀ (dkvs : List (List Char × Json)) (v : Json),
        dictGet kvs deltaKey = some (Json.obj dkvs) →
        dictGet dkvs contentKey = some v →
        processEvent j = Except.ok (some
          { message := v, finish_reason := (dictGet kvs finishKey).getD Json.null })) ∧
    (∀ (f : Json), deltaWithoutContent kvs → dictGet kvs finishKey = some f →
        processEvent j = Except.ok (some { message := Json.str [], finish_reason := f })) ∧
    (deltaWithoutContent kvs → dictGet kvs finishKey = none →
        processEvent j = Except.ok none) ∧
    processLines [stopLine] =
      ([{ message := Json.str [], finish_reason := Json.str (toL "stop") }], none) := by
  subst h3
  refine ⟨?_, ?_, ?_, rfl⟩
  · intro dkvs v hd hc
    have ha : (kvs.any (fun p => p.1 == deltaKey)) = true := by
      rw [← dictGet_isSome_eq_any, hd]; rfl
    have hb : (dkvs.any (fun p => p.1 == contentKey)) = true := by
      rw [← dictGet_isSome_eq_any, hc]; rfl
    simp only [processEvent, h1, h2]
    simp [pyIn, pyGetItem, pyGet, ha, hb, hd, hc]
  · intro f hdc hf
    have hfa : (kvs.any (fun p => p.1 == finishKey)) = true := by
      rw [← dictGet_isSome_eq_any, hf]; rfl
    rcases hdc with hd | ⟨dkvs, hd, hc⟩
    · have ha : (kvs.any (fun p => p.1 == deltaKey)) = false := by
        rw [← dictGet_isSome_eq_any, hd]; rfl
      simp only [processEvent, h1, h2]
      simp [pyIn, pyGetItem, ha, hfa, hf]
    · have ha : (kvs.any (fun p => p.1 == deltaKey)) = true := by
        rw [← dictGet_isSome_eq_any, hd]; rfl
      have hb : (dkvs.any (fun p => p.1 == contentKey)) = false := by
        rw [← dictGet_isSome_eq_any, hc]; rfl
      simp only [processEvent, h1, h2]
      simp [pyIn, pyGetItem, ha, hb, hd, hfa, hf]
  · intro hdc hf
    have hfa : (kvs.any (fun p => p.1 == finishKey)) = false := by
      rw [← dictGet_isSome_eq_any, hf]; rfl
    rcases hdc with hd | ⟨dkvs, hd, hc⟩
    · have ha : (kvs.any (fun p => p.1 == deltaKey)) = false := by
        rw [← dictGet_isSome_eq_any, hd]; rfl
      simp only [processEvent, h1, h2]
      simp [pyIn, pyGetItem, ha, hfa]
    · have ha : (kvs.any (fun p => p.1 == deltaKey)) = true := by
        rw [← dictGet_isSome_eq_any, hd]; rfl
      have hb : (dkvs.any (fun p => p.1 == contentKey)) = false := by
        rw [← dictGet_isSome_eq_any, hc]; rfl
      simp only [processEvent, h1, h2]
      simp [pyIn, pyGetItem, ha, hb, hd, hfa]

/-- The decoded object of the finish-only example event. -/
def stopEvent : Json :=
  Json.obj [(choicesKey, Json.arr [Json.obj [(finishKey, Json.str (toL "stop"))]])]

/-- Witness for C3 at the finish-only example event. -/
theorem c3_witness :
    processEvent stopEvent =
      Except.ok (some { message := Json.str [], finish_reason := Json.str (toL "stop") }) :=
  (c3_event_trichotomy stopEvent
    (Json.arr [Json.obj [(finishKey, Json.str (toL "stop"))]])
    (Json.obj [(finishKey, Json.str (toL "stop"))])
    [(finishKey, Json.str (toL "stop"))]
    rfl rfl rfl).2.1 (Json.str (toL "stop")) (Or.inl rfl) rfl

/- ----------------------------------------------------------------------- -/
/- C4.                                                                      -/
/- ----------------------------------------------------------------------- -/

/-- C4 (confirmed): `prepare_messages` returns a list of length
`conversation length + 2`: the system message first, the conversation turns
verbatim (role and content) in order in the middle, and last a user message
whose content is exactly
`Answer this query: '<query>' with this provided context: <context>`. -/
theorem c4_prepare_messages_shape (query context : List Char)
    (conversation : List ConvMessage) (system_message : Json) :
    (prepare_messages query context conversation system_message).length =
        conversation.length + 2 ∧
    (prepare_messages query context conversation system_message).head? =
        some { role := toL "system", content := system_message } ∧
    ((prepare_messages query context conversation system_message).drop 1).take
        conversation.length =
        conversation.map (fun m => { role := m.type, content := m.content }) ∧
    (prepare_messages query context conversation system_message).getLast? =
        some { role := toL "user", content := Json.str (queryTemplate query context) } := by
  refine ⟨?_, rfl, ?_, ?_⟩
  · simp [prepare_messages]
  · simp only [prepare_messages, List.drop_succ_cons, List.drop_zero]
    rw [← List.length_map conversation (fun m =>
      ({ role := m.type, content := m.content } : OutMessage))]
    exact List.take_left _ _
  · simp only [prepare_messages, ← List.cons_append]
    exact List.getLast?_concat _

/- ----------------------------------------------------------------------- -/
/- C5.                                                                      -/
/- ----------------------------------------------------------------------- -/

/-- C5 (confirmed): with no `API Key` configuration entry and no ambient
credential, `generate_stream` fails with the missing-credential error, and
the outcome is the same for every possible network response — the failure
happens before the connection is used. When both a configuration entry and
an ambient value exist, for the API key as well as for the URL, the prepared
request carries the configuration-supplied values. -/
theorem c5_missing_credential_and_precedence (config : Config) (env : Env)
    (query context : List Char) (conversation : List ConvMessage)
    (smE mE : InputConfig)
    (hs : dictGet config systemMessageKey = some smE)
    (hm : dictGet config modelKey = some mE) :
    (dictGet config apiKeyKey = none → env.OPENAI_API_KEY = none →
      ∀ resp : StreamResponse,
        generate_stream config env query context conversation resp =
          ([], some (PyErr.missingCredential noKeyMessage))) ∧
    (∀ (eK eU : InputConfig) (w wU : List Char),
        dictGet config apiKeyKey = some eK → env.OPENAI_API_KEY = some w →
        dictGet config urlKey = some eU → env.OPENAI_BASE_URL = some wU →
        generate_stream_prepare config env query context conversation =
          Except.ok { openai_url := eU.value, openai_key := eK.value, model := mE.value,
                      messages := prepare_messages query context conversation smE.value }) := by
  constructor
  · intro hk he resp
    simp [generate_stream, generate_stream_prepare, get_environment, hs, hm, hk, he]
  · intro eK eU w wU hk he hu hbu
    simp [generate_stream_prepare, get_environment, hs, hm, hk, hu]

/-- Witness for C5: a configuration without an `API Key` entry, an empty
environment, and an arbitrary response. -/
theorem c5_witness :
    generate_stream cfgNoKey envEmpty (toL "q") (toL "ctx") []
        { status := 200, lines := [hiLine] } =
      ([], some (PyErr.missingCredential noKeyMessage)) :=
  (c5_missing_credential_and_precedence cfgNoKey envEmpty (toL "q") (toL "ctx") []
    { type := toL "textarea", value := Json.str (toL "sys"),
      description := [], values := [] }
    { type := toL "dropdown", value := Json.str (toL "gpt-4o"),
      description := [], values := [] }
    rfl rfl).1 rfl rfl { status := 200, lines := [hiLine] }

/- ----------------------------------------------------------------------- -/
/- C6.                                                                      -/
/- ----------------------------------------------------------------------- -/

/-- C6 (counterexample): the claim says any non-2xx status is a fetch
failure returning the fallback list. `raise_for_status` raises only on
400-599, so a 304 response with a well-formed body is parsed normally: the
call returns the parsed catalog, not the fallback list. -/
theorem c6_counterexample :
    get_models (some (toL "sk-test")) defaultBaseUrl (FetchResult.response 304 catalogBody) =
      [Json.str (toL "gpt-4o")] ∧
    ¬ (get_models (some (toL "sk-test")) defaultBaseUrl (FetchResult.response 304 catalogBody) =
        default_models) := by
  constructor
  · rfl
  · intro h
    exact absurd (congrArg List.length h) (by decide)

/-- C6 (amended): `get_models` is total — it always returns a list. With no
credential it returns the fixed fallback `["gpt-4o", "gpt-3.5-turbo"]`
whatever the network would have answered (no dependence on the fetch); on a
transport error, on a 4xx or 5xx status (the statuses `raise_for_status`
raises on), or on a body the extraction fails on, it returns the same
fallback list. -/
theorem c6_amended_fallback :
    (∀ (url : List Char) (fetch : FetchResult),
        get_models none url fetch = default_models) ∧
    (∀ (t url : List Char),
        get_models (some t) url FetchResult.networkError = default_models) ∧
    (∀ (t url : List Char) (status : Nat) (body : List Char),
        400 ≤ status → status < 600 →
        get_models (some t) url (FetchResult.response status body) = default_models) ∧
    (∀ (t url : List Char) (status : Nat) (body : List Char) (e : PyErr),
        extractModels body = Except.error e →
        get_models (some t) url (FetchResult.response status body) = default_models) := by
  refine ⟨fun _ _ => rfl, fun _ _ => rfl, ?_, ?_⟩
  · intro t url status body h1 h2
    have hr : raisesForStatus status = true := by
      simp [raisesForStatus, h1, h2]
    simp [get_models, hr]
  · intro t url status body e h
    cases hr : raisesForStatus status with
    | true => simp [get_models, hr]
    | false => simp [get_models, hr, h]

/-- Witness for the amended C6 at a 500 status. -/
theorem c6_witness :
    get_models (some (toL "sk-test")) defaultBaseUrl (FetchResult.response 500 catalogBody) =
      default_models :=
  c6_amended_fallback.2.2.1 (toL "sk-test") defaultBaseUrl 500 catalogBody
    (by decide) (by decide)

/- ----------------------------------------------------------------------- -/
/- C7.                                                                      -/
/- ----------------------------------------------------------------------- -/

/-- A discovery body, already decoded, whose `data` array holds the given
identifiers. -/
def mkCatalogBody (ids : List (List Char)) : Json :=
  Json.obj [(dataKey, Json.arr (ids.map (fun id => Json.obj [(idKey, Json.str id)])))]

/-- The comprehension keeps exactly the identifiers without `"embedding"`,
in order. -/
theorem compItems_spec (ids : List (List Char)) :
    compItems (ids.map (fun id => Json.obj [(idKey, Json.str id)])) =
      Except.ok ((ids.filter (fun id => !(containsSub embeddingNeedle id))).map Json.str) := by
  induction ids with
  | nil => rfl
  | cons id rest ih =>
    cases h : containsSub embeddingNeedle id with
    | true => simp [compItems, pyGetItem, dictGet, pyIn, ih, h, List.filter_cons]
    | false => simp [compItems, pyGetItem, dictGet, pyIn, ih, h, List.filter_cons]

/-- C7 (confirmed): on a successful discovery response, the comprehension
returns every identifier of the `data` array whose id does not contain
`"embedding"`, in the provider's order; in particular the example body with
`text-embedding-3` and `gpt-4o` yields exactly `["gpt-4o"]`. -/
theorem c7_model_filter :
    (∀ ids : List (List Char),
        listComp (mkCatalogBody ids) =
          Except.ok ((ids.filter (fun id => !(containsSub embeddingNeedle id))).map
            Json.str)) ∧
    (∀ t : List Char,
        get_models (some t) defaultBaseUrl (FetchResult.response 200 catalogBody) =
          [Json.str (toL "gpt-4o")]) := by
  constructor
  · intro ids
    simp [listComp, mkCatalogBody, pyGetItem, dictGet, pyIterate, compItems_spec]
  · intro t
    rfl

/- ----------------------------------------------------------------------- -/
/- C8.                                                                      -/
/- ----------------------------------------------------------------------- -/

/-- C8 (confirmed): `prepare_messages` reads nothing but its four parameters
— the source method touches no attribute, global, or I/O — so it embeds as a
pure function, and two calls on identical inputs return identical output. -/
theorem c8_prepare_messages_deterministic (q c : List Char) (conv : List ConvMessage)
    (s : Json) (q' c' : List Char) (conv' : List ConvMessage) (s' : Json)
    (hq : q = q') (hc : c = c') (hv : conv = conv') (hs : s = s') :
    prepare_messages q c conv s = prepare_messages q' c' conv' s' := by
  subst hq; subst hc; subst hv; subst hs; rfl

/-- Witness for C8 at concrete inputs. -/
theorem c8_witness :
    prepare_messages (toL "q") (toL "ctx") [] (Json.str (toL "sys")) =
      prepare_messages (toL "q") (toL "ctx") [] (Json.str (toL "sys")) :=
  c8_prepare_messages_deterministic (toL "q") (toL "ctx") [] (Json.str (toL "sys"))
    (toL "q") (toL "ctx") [] (Json.str (toL "sys")) rfl rfl rfl rfl

/- ----------------------------------------------------------------------- -/
/- C9.                                                                      -/
/- ----------------------------------------------------------------------- -/

/-- C9 (confirmed): whenever construction succeeds, the configuration holds
an `API Key` entry exactly when the ambient credential is absent and a `URL`
entry exactly when the ambient base URL is absent, and neither slot ever
occurs more than once. -/
theorem c9_config_slot_invariant (env : Env) (fetch : FetchResult) (config : Config)
    (h : generator_init env fetch = Except.ok config) :
    ((dictGet config apiKeyKey).isSome ↔ env.OPENAI_API_KEY = none) ∧
    ((dictGet config urlKey).isSome ↔ env.OPENAI_BASE_URL = none) ∧
    config.countP (fun p => decide (p.1 = apiKeyKey)) ≤ 1 ∧
    config.countP (fun p => decide (p.1 = urlKey)) ≤ 1 := by
  have k1 : ¬ (modelKey = apiKeyKey) := by decide
  have k2 : ¬ (systemMessageKey = apiKeyKey) := by decide
  have k3 : ¬ (urlKey = apiKeyKey) := by decide
  have k4 : ¬ (modelKey = urlKey) := by decide
  have k5 : ¬ (systemMessageKey = urlKey) := by decide
  have k6 : ¬ (apiKeyKey = urlKey) := by decide
  obtain ⟨ak, bu, om⟩ := env
  revert h
  simp only [generator_init, get_token]
  cases hg : get_models ak (Option.getD bu defaultBaseUrl) fetch with
  | nil => intro h; exact absurd h (by simp)
  | cons m ms =>
    intro h
    injection h with h'
    subst h'
    cases ak <;> cases bu <;>
      simp [dictGet, List.countP_append, List.countP_cons, List.countP_nil,
        k1, k2, k3, k4, k5, k6]

/-- The concrete configuration produced at the witness environment. -/
def cfgBuilt : Config :=
  (generator_init envKeyOnly (FetchResult.response 200 catalogBody)).toOption.getD []

/-- Witness for C9: ambient credential present, ambient base URL absent. -/
theorem c9_witness :
    ((dictGet cfgBuilt apiKeyKey).isSome ↔ envKeyOnly.OPENAI_API_KEY = none) ∧
    ((dictGet cfgBuilt urlKey).isSome ↔ envKeyOnly.OPENAI_BASE_URL = none) ∧
    cfgBuilt.countP (fun p => decide (p.1 = apiKeyKey)) ≤ 1 ∧
    cfgBuilt.countP (fun p => decide (p.1 = urlKey)) ≤ 1 :=
  c9_config_slot_invariant envKeyOnly (FetchResult.response 200 catalogBody) cfgBuilt rfl

/- ----------------------------------------------------------------------- -/
/- C10.                                                                     -/
/- ----------------------------------------------------------------------- -/

/-- C10 (confirmed): when discovery returns an empty catalog and no ambient
default model is set, construction fails with `IndexError` at `models[0]`
(evaluated eagerly as the default argument of `os.getenv`) instead of
degrading to the static fallback; and an empty catalog is reachable from a
successful discovery response whose only identifier contains
`"embedding"`. -/
theorem c10_empty_catalog_constructor_failure (env : Env) (fetch : FetchResult)
    (hm : get_models (get_token env) (env.OPENAI_BASE_URL.getD defaultBaseUrl) fetch = [])
    (ho : env.OPENAI_MODEL = none) :
    generator_init env fetch = Except.error PyErr.indexError ∧
    get_models (some (toL "sk-test")) defaultBaseUrl
        (FetchResult.response 200 embeddingOnlyBody) = [] := by
  refine ⟨?_, rfl⟩
  simp [generator_init, hm]

/-- Witness for C10: ambient credential set, catalog discovery succeeding
with only an embedding model. -/
theorem c10_witness :
    generator_init envKeyOnly (FetchResult.response 200 embeddingOnlyBody) =
      Except.error PyErr.indexError :=
  (c10_empty_catalog_constructor_failure envKeyOnly
    (FetchResult.response 200 embeddingOnlyBody) rfl rfl).1
